import Mathlib

set_option maxRecDepth 40000

/-!
Verification of the aws-cloudscape-mcp-server catalog, URI resolver and query
engine. The definitions below are a shallow embedding of
`src/src/data/cloudscape-components.ts` (the static catalog) and of the request
handlers in the server entry point (URI resolution, component search,
recommendation, and markdown formatting). JS strings are modelled as Lean
`String`s (the data is ASCII, so UTF-16 code units coincide with characters),
`toLowerCase` as `String.toLower`, and JS records with string keys as
association lists in insertion order.
-/

namespace Cloudscape

/-! ## Data model (cloudscape-components.ts) -/

structure CloudscapeExample where
  title : String
  description : String
  code : String
deriving DecidableEq

inductive ComponentCategory where
  | CONTAINER
  | NAVIGATION
  | FORM
  | TABLE
  | CHART
  | TEXT
  | NOTIFICATION
  | OVERLAY
  | OTHER
deriving DecidableEq, Fintype

/-- The string value of each member of the ComponentCategory string enum. -/
def categoryValue : ComponentCategory → String
  | .CONTAINER => "Container"
  | .NAVIGATION => "Navigation"
  | .FORM => "Form"
  | .TABLE => "Table"
  | .CHART => "Chart"
  | .TEXT => "Text"
  | .NOTIFICATION => "Notification"
  | .OVERLAY => "Overlay"
  | .OTHER => "Other"

/-- The enum members in declaration order, i.e. Object.values(ComponentCategory). -/
def allCategories : List ComponentCategory :=
  [.CONTAINER, .NAVIGATION, .FORM, .TABLE, .CHART, .TEXT, .NOTIFICATION, .OVERLAY, .OTHER]

structure ComponentLinks where
  documentation : String
  designGuidelines : Option String
deriving DecidableEq

structure CloudscapeComponent where
  id : String
  name : String
  description : String
  usage : String
  examples : List CloudscapeExample
  category : ComponentCategory
  bestPractices : List String
  links : ComponentLinks
deriving DecidableEq

structure CloudscapePattern where
  name : String
  description : String
  usage : String
deriving DecidableEq

/-! ## JS string primitives -/

/-- JS String.prototype.includes on char lists: `true` iff `needle` occurs as a
contiguous substring of `hay` (an empty needle always occurs). -/
def strIncludes : List Char → List Char → Bool
  | [], needle => needle.isEmpty
  | c :: t, needle => needle.isPrefixOf (c :: t) || strIncludes t needle

/-- The JS expression hay.includes(needle), for JS strings. -/
def includesJS (hay needle : String) : Bool :=
  strIncludes hay.data needle.data

/-- The JS expression s.toLowerCase(): the catalog data is ASCII, where JS and
ASCII lowercasing agree (`Char.toLower` lowercases exactly `A`-`Z`). -/
def toLowerJS (s : String) : String :=
  String.mk (s.data.map Char.toLower)

theorem strIncludes_iff (hay needle : List Char) :
    strIncludes hay needle = true ↔ needle <:+: hay := by
  induction hay with
  | nil =>
    simp [strIncludes, List.isEmpty_iff]
  | cons c t ih =>
    rw [strIncludes, Bool.or_eq_true, ih, List.isPrefixOf_iff_prefix,
      List.infix_cons_iff]

theorem includesJS_iff (hay needle : String) :
    includesJS hay needle = true ↔ needle.data <:+: hay.data :=
  strIncludes_iff hay.data needle.data

/-- The JS expression s.substring(0, n) (ASCII data: code units = chars). -/
def jsSubstring (s : String) (n : Nat) : String :=
  String.mk (s.data.take n)

/-- The JS expression s.length (ASCII data: code units = chars). -/
def jsLength (s : String) : Nat :=
  s.data.length


/-! ## The shipped catalog (cloudscape-components.ts) -/

/-- The catalog entry keyed "button" in cloudscapeComponents (src/src/data/cloudscape-components.ts). -/
def buttonComponent : CloudscapeComponent where
  id := "button"
  name := "Button"
  description := "Buttons represent actions that users can take."
  usage := "Use buttons to enable users to perform actions such as submitting a form, confirming a decision, or navigating between pages. Cloudscape provides different variations of buttons for different use cases."
  examples := [
    { title := "Primary button",
      description := "Use a primary button for the main action on a page or in a container.",
      code := "import \x7b Button \x7d from \x27@cloudscape-design/components\x27;\n\nfunction MyComponent() \x7b\n  return <Button variant=\"primary\">Create resource</Button>;\n\x7d" },
    { title := "Normal button",
      description := "Use a normal button for secondary actions.",
      code := "import \x7b Button \x7d from \x27@cloudscape-design/components\x27;\n\nfunction MyComponent() \x7b\n  return <Button>Cancel</Button>;\n\x7d" },
    { title := "Button with icon",
      description := "Add an icon to a button to help users understand the action.",
      code := "import \x7b Button \x7d from \x27@cloudscape-design/components\x27;\n\nfunction MyComponent() \x7b\n  return <Button iconName=\"add-plus\">Add item</Button>;\n\x7d" }]
  category := ComponentCategory.FORM
  bestPractices := [
    "Use primary buttons sparingly – only one primary button per page or container",
    "Use clear, action-oriented text for button labels",
    "Position primary actions on the right and secondary actions like \x27Cancel\x27 on the left",
    "Use link buttons for navigation and regular buttons for actions"]
  links := { documentation := "https://cloudscape.design/components/button/", designGuidelines := some "https://cloudscape.design/design/patterns/buttons/" }

/-- The catalog entry keyed "table" in cloudscapeComponents (src/src/data/cloudscape-components.ts). -/
def tableComponent : CloudscapeComponent where
  id := "table"
  name := "Table"
  description := "Tables display data in a structured format with rows and columns."
  usage := "Use tables to present structured data that users need to scan, compare, or analyze. Cloudscape tables offer built-in sorting, filtering, pagination, and selection capabilities."
  examples := [
    { title := "Basic table",
      description := "A simple table with column headers and data.",
      code := "import \x7b Table \x7d from \x27@cloudscape-design/components\x27;\n\nfunction MyComponent() \x7b\n  const columnDefinitions = [\n    \x7b header: \"ID\", cell: item => item.id \x7d,\n    \x7b header: \"Name\", cell: item => item.name \x7d,\n    \x7b header: \"Type\", cell: item => item.type \x7d\n  ];\n\n  const items = [\n    \x7b id: \"1\", name: \"Instance 1\", type: \"t3.micro\" \x7d,\n    \x7b id: \"2\", name: \"Instance 2\", type: \"t3.small\" \x7d\n  ];\n\n  return (\n    <Table\n      columnDefinitions=\x7bcolumnDefinitions\x7d\n      items=\x7bitems\x7d\n      header=\"Resources\"\n    />\n  );\n\x7d" },
    { title := "Selectable table",
      description := "A table with row selection enabled.",
      code := "import \x7b Table \x7d from \x27@cloudscape-design/components\x27;\nimport \x7b useState \x7d from \x27react\x27;\n\nfunction MyComponent() \x7b\n  const [selectedItems, setSelectedItems] = useState([]);\n\n  const columnDefinitions = [\n    \x7b header: \"ID\", cell: item => item.id \x7d,\n    \x7b header: \"Name\", cell: item => item.name \x7d\n  ];\n\n  const items = [\n    \x7b id: \"1\", name: \"Instance 1\" \x7d,\n    \x7b id: \"2\", name: \"Instance 2\" \x7d\n  ];\n\n  return (\n    <Table\n      columnDefinitions=\x7bcolumnDefinitions\x7d\n      items=\x7bitems\x7d\n      selectionType=\"multi\"\n      selectedItems=\x7bselectedItems\x7d\n      onSelectionChange=\x7b(\x7b detail \x7d) =>\n        setSelectedItems(detail.selectedItems)\n      \x7d\n      header=\"Selectable resources\"\n    />\n  );\n\x7d" }]
  category := ComponentCategory.TABLE
  bestPractices := [
    "Use meaningful column headers that clearly describe the data",
    "Enable pagination for large data sets",
    "Include a search box when tables contain many rows",
    "Use empty state messaging when there\x27s no data to display"]
  links := { documentation := "https://cloudscape.design/components/table/", designGuidelines := some "https://cloudscape.design/design/patterns/tables/" }

/-- The catalog entry keyed "form" in cloudscapeComponents (src/src/data/cloudscape-components.ts). -/
def formComponent : CloudscapeComponent where
  id := "form"
  name := "Form"
  description := "Forms collect input from users."
  usage := "Use forms to gather information from users in a structured way. Cloudscape provides a form component that handles layout, validation, and error handling."
  examples := [
    { title := "Basic form",
      description := "A simple form with text input fields.",
      code := "import \x7b Form, FormField, Input \x7d from \x27@cloudscape-design/components\x27;\n\nfunction MyComponent() \x7b\n  return (\n    <Form\n      header=\x7b<h1>Create resource</h1>\x7d\n      actions=\x7b\n        <SpaceBetween direction=\"horizontal\" size=\"xs\">\n          <Button variant=\"link\">Cancel</Button>\n          <Button variant=\"primary\">Submit</Button>\n        </SpaceBetween>\n      \x7d\n    >\n      <FormField\n        label=\"Resource name\"\n        description=\"The name of the resource.\"\n      >\n        <Input value=\x7bname\x7d onChange=\x7b(\x7b detail \x7d) => setName(detail.value)\x7d />\n      </FormField>\n    </Form>\n  );\n\x7d" }]
  category := ComponentCategory.FORM
  bestPractices := [
    "Group related form fields together",
    "Use clear, concise labels for form fields",
    "Provide helper text to explain complex fields",
    "Show validation errors inline next to the relevant field"]
  links := { documentation := "https://cloudscape.design/components/form/", designGuidelines := some "https://cloudscape.design/design/patterns/forms/" }

/-- The catalog entry keyed "header" in cloudscapeComponents (src/src/data/cloudscape-components.ts). -/
def headerComponent : CloudscapeComponent where
  id := "header"
  name := "Header"
  description := "Headers appear at the top of pages and containers to provide context and actions."
  usage := "Use headers to provide information about the content and to offer actions related to that content."
  examples := [
    { title := "Page header",
      description := "A header for a page with actions.",
      code := "import \x7b Header, Button, SpaceBetween \x7d from \x27@cloudscape-design/components\x27;\n\nfunction MyComponent() \x7b\n  return (\n    <Header\n      variant=\"h1\"\n      actions=\x7b\n        <SpaceBetween size=\"xs\" direction=\"horizontal\">\n          <Button>Edit</Button>\n          <Button variant=\"primary\">Create</Button>\n        </SpaceBetween>\n      \x7d\n    >\n      Resources\n    </Header>\n  );\n\x7d" }]
  category := ComponentCategory.CONTAINER
  bestPractices := [
    "Use concise, descriptive headings",
    "Place the most important actions in the header",
    "Use consistent heading levels throughout your application",
    "Consider using breadcrumbs with headers for navigation context"]
  links := { documentation := "https://cloudscape.design/components/header/", designGuidelines := none }

/-- The catalog entry keyed "box" in cloudscapeComponents (src/src/data/cloudscape-components.ts). -/
def boxComponent : CloudscapeComponent where
  id := "box"
  name := "Box"
  description := "Boxes are container components that visually group content."
  usage := "Use boxes to create visual separation between different sections of content on a page."
  examples := [
    { title := "Basic box",
      description := "A simple box with a header.",
      code := "import \x7b Box \x7d from \x27@cloudscape-design/components\x27;\n\nfunction MyComponent() \x7b\n  return (\n    <Box\n      variant=\"awsui-key-label\"\n      padding=\"s\"\n      fontSize=\"body-m\"\n      color=\"text-body-secondary\"\n    >\n      <h3>Important information</h3>\n      <p>This is important content that needs to stand out.</p>\n    </Box>\n  );\n\x7d" }]
  category := ComponentCategory.CONTAINER
  bestPractices := [
    "Use boxes to group related content",
    "Don\x27t nest boxes too deeply",
    "Consider using different variants for different types of content",
    "Use consistent padding within boxes"]
  links := { documentation := "https://cloudscape.design/components/box/", designGuidelines := none }

/-- The catalog entry keyed "alert" in cloudscapeComponents (src/src/data/cloudscape-components.ts). -/
def alertComponent : CloudscapeComponent where
  id := "alert"
  name := "Alert"
  description := "Alerts display important messages to users."
  usage := "Use alerts to communicate important information, warnings, or errors to users."
  examples := [
    { title := "Success alert",
      description := "A success alert to confirm an action was completed.",
      code := "import \x7b Alert \x7d from \x27@cloudscape-design/components\x27;\n\nfunction MyComponent() \x7b\n  return (\n    <Alert\n      type=\"success\"\n      header=\"Resource created successfully\"\n    >\n      Your new resource is now available.\n    </Alert>\n  );\n\x7d" },
    { title := "Warning alert",
      description := "A warning alert for potential issues.",
      code := "import \x7b Alert \x7d from \x27@cloudscape-design/components\x27;\n\nfunction MyComponent() \x7b\n  return (\n    <Alert\n      type=\"warning\"\n      header=\"Your account is approaching its quota\"\n    >\n      Consider upgrading your plan to avoid service interruptions.\n    </Alert>\n  );\n\x7d" }]
  category := ComponentCategory.NOTIFICATION
  bestPractices := [
    "Use the appropriate alert type (success, warning, info, error)",
    "Provide clear, actionable information in alerts",
    "Use alerts sparingly to avoid alert fatigue",
    "Position alerts where they will be noticed but not disruptive"]
  links := { documentation := "https://cloudscape.design/components/alert/", designGuidelines := some "https://cloudscape.design/design/patterns/status-indicators/" }

/-- The cloudscapeComponents record, as an association list in definition
(insertion) order; JS objects with string keys preserve insertion order. -/
def cloudscapeComponents : List (String × CloudscapeComponent) :=
  [("button", buttonComponent),
   ("table", tableComponent),
   ("form", formComponent),
   ("header", headerComponent),
   ("box", boxComponent),
   ("alert", alertComponent)]

/-- The cloudscapePatterns record, as an association list in definition order. -/
def cloudscapePatterns : List (String × CloudscapePattern) :=
  [("empty-state",
    { name := "Empty state",
      description := "Design pattern for showing empty states in tables, lists, and dashboards",
      usage := "Use empty states to communicate when there\x27s no data to display and guide users on what to do next." }),
   ("form-validation",
    { name := "Form validation",
      description := "Patterns for validating user input in forms",
      usage := "Use form validation to help users complete forms correctly and efficiently." }),
   ("loading-states",
    { name := "Loading states",
      description := "Patterns for indicating that content is loading",
      usage := "Use loading states to provide feedback to users when content is being loaded." })]

/-- The componentsByCategory record: the ordered id lists per category. -/
def componentsByCategory : ComponentCategory → List String
  | .CONTAINER => ["box", "header"]
  | .NAVIGATION => []
  | .FORM => ["button", "form"]
  | .TABLE => ["table"]
  | .CHART => []
  | .TEXT => []
  | .NOTIFICATION => ["alert"]
  | .OVERLAY => []
  | .OTHER => []

/-! ## Catalog store lookups -/

/-- Record lookup cloudscapeComponents[id] by key. -/
def getComponent (id : String) : Option CloudscapeComponent :=
  (cloudscapeComponents.find? (fun p => p.1 == id)).map Prod.snd

/-- Record lookup cloudscapePatterns[id] by key. -/
def getPattern (id : String) : Option CloudscapePattern :=
  (cloudscapePatterns.find? (fun p => p.1 == id)).map Prod.snd

/-- The components in definition order, i.e. Object.values(cloudscapeComponents). -/
def componentValues : List CloudscapeComponent :=
  cloudscapeComponents.map Prod.snd


/-! ## Query engine: search (CallToolRequestSchema handler, case "search_components") -/

/-- The search_components tool: filters `Object.values(cloudscapeComponents)` by
`component.name.toLowerCase().includes(query) || description... || usage...`
(with `query` already lowercased by the handler) and by
`!category || component.category === category`. The category argument arrives
as a raw string; `none` models `undefined`, and the empty string is falsy in
JS, so `some ""` also disables the filter. -/
def searchComponents (query : String) (category : Option String) : List CloudscapeComponent :=
  let q := toLowerJS query
  componentValues.filter fun component =>
    (includesJS (toLowerJS component.name) q ||
     includesJS (toLowerJS component.description) q ||
     includesJS (toLowerJS component.usage) q) &&
    (match category with
     | none => true
     | some k => k == "" || categoryValue component.category == k)

/-! ## Query engine: recommendation (case "get_component_recommendation") -/

/-- The recommendation keyword table (`keywords` in the handler), in
definition order. -/
def keywords : List (String × List String) :=
  [("button", ["button", "click", "action", "submit", "cancel"]),
   ("table", ["table", "data", "grid", "row", "column", "list", "items"]),
   ("form", ["form", "input", "field", "submit", "validation", "enter data"]),
   ("header", ["header", "title", "heading", "page title", "section title"]),
   ("box", ["container", "box", "group", "section", "panel"]),
   ("alert", ["alert", "message", "notification", "warning", "error", "success", "info"])]

/-- The final value of `matches[componentId]` for one rule: the loop adds 1 for
each keyword of the rule with
`useCase.toLowerCase().includes(keyword.toLowerCase())`, so each keyword list
position contributes at most one increment. -/
def countKw (useCase : String) (kws : List String) : Nat :=
  (kws.filter (fun k => includesJS (toLowerJS useCase) (toLowerJS k))).length

/-- The list Object.entries(matches): a JS object keeps string keys in insertion
order, and a component id is inserted the first time one of its keywords
matches, so the entries are the rules with a nonzero counter, in the
rule-definition order of `keywords`. -/
def matchesEntries (useCase : String) : List (String × Nat) :=
  (keywords.map (fun r => (r.1, countKw useCase r.2))).filter (fun p => p.2 ≠ 0)

/-- Insert into a list already sorted by count descending, after every element
with a count ≥ the new one: the placement a stable sort gives an element
arriving after those already placed. -/
def insertByCount (p : String × Nat) : List (String × Nat) → List (String × Nat)
  | [] => [p]
  | q :: t => if q.2 ≤ p.2 then p :: q :: t else q :: insertByCount p t

/-- The call .sort((a, b) => b[1] - a[1]): JS Array.prototype.sort is stable, so the
result is the unique permutation ordered by count descending with ties kept in
input order; stable insertion sort realises exactly that permutation. -/
def sortByCountDesc : List (String × Nat) → List (String × Nat)
  | [] => []
  | p :: t => insertByCount p (sortByCountDesc t)

/-- The pipeline Object.entries(matches).sort((a, b) => b[1] - a[1]).slice(0, 3). -/
def sortedPairs (useCase : String) : List (String × Nat) :=
  (sortByCountDesc (matchesEntries useCase)).take 3

/-- The handler variable sortedMatches: the top-3 component ids. -/
def sortedMatches (useCase : String) : List String :=
  (sortedPairs useCase).map Prod.fst

/-- The get_component_recommendation tool, at the granularity of the
recommended id list: `none` is the explicit "no recommendation" reply sent
when `sortedMatches.length === 0`. -/
def recommend (useCase : String) : Option (List String) :=
  if sortedMatches useCase = [] then none else some (sortedMatches useCase)

/-! ## Presentation formatter -/

/-- The function formatComponentAsMarkdown: the single-entity markdown rendering, with
the examples and best-practices sections joined exactly as in the source. -/
def formatComponentAsMarkdown (component : CloudscapeComponent) : String :=
  let examplesMarkdown := String.intercalate "\n\n" (component.examples.map (fun ex =>
    "\n### " ++ ex.title ++ "\n" ++ ex.description ++ "\n\n```tsx\n" ++
      ex.code ++ "\n```\n"))
  let bestPracticesMarkdown := String.intercalate "\n"
    (component.bestPractices.map (fun practice => "- " ++ practice))
  "# " ++ component.name ++ "\n\n" ++ component.description ++ "\n\n## Usage\n" ++
    component.usage ++ "\n\n## Examples\n" ++ examplesMarkdown ++
    "\n\n## Best Practices\n" ++ bestPracticesMarkdown ++
    "\n\n## Documentation Links\n- [Component Documentation](" ++
    component.links.documentation ++ ")\n" ++
    (match component.links.designGuidelines with
     | some g => "- [Design Guidelines](" ++ g ++ ")"
     | none => "") ++ "\n"

/-- The function formatCategoryAsMarkdown. The `cloudscapeComponents[id]` lookups are
modelled with `getComponent`; every id listed in `componentsByCategory` is a
key of the catalog, so the `filterMap` never actually skips an entry. -/
def formatCategoryAsMarkdown (category : ComponentCategory) : String :=
  let componentsList := String.intercalate "\n"
    ((componentsByCategory category).filterMap (fun id =>
      (getComponent id).map (fun component =>
        "- [" ++ component.name ++ "](" ++ component.links.documentation ++ "): " ++
          component.description)))
  "# " ++ categoryValue category ++ " Components\n\n" ++
    (if 0 < jsLength componentsList then componentsList
     else "No components in this category yet.") ++ "\n"

/-- The function formatPatternAsMarkdown (the id argument is unused, as in the source). -/
def formatPatternAsMarkdown (id : String) (pattern : CloudscapePattern) : String :=
  "# " ++ pattern.name ++ "\n\n" ++ pattern.description ++ "\n\n## Usage\n" ++
    pattern.usage ++ "\n"

/-- One entry of the search_components result summary (the `.map` template over
`filteredComponents`), with the usage truncated to its first 150 code units and
an ellipsis appended when `component.usage.length > 150`. -/
def searchResultEntry (component : CloudscapeComponent) : String :=
  "\n## [" ++ component.name ++ "](" ++ component.links.documentation ++
    ")\n**Category:** " ++ categoryValue component.category ++ "\n\n" ++
    component.description ++ "\n\n**Usage:** " ++ jsSubstring component.usage 150 ++
    (if 150 < jsLength component.usage then "..." else "") ++ "\n"

/-! ## URI resolver (ReadResourceRequestSchema handler) -/

/-- JS regexp line terminators, the characters `.` does not match. -/
def isLineTerm (c : Char) : Bool :=
  c = '\n' || c = '\r' || c = '\u2028' || c = '\u2029'

/-- The chars of the fixed scheme literal. -/
def schemeChars : List Char := "cloudscape://".data

/-- Split a char list at its first `/`: `some (before, after)` with `before`
free of `/`, or `none` when no `/` occurs. -/
def splitFirstSlash : List Char → Option (List Char × List Char)
  | [] => none
  | c :: t =>
    if c = '/' then some ([], t)
    else (splitFirstSlash t).map (fun p => (c :: p.1, p.2))

/-- One attempt of the regexp `cloudscape:\/\/([^\/]+)\/(.+)` anchored at the
start of `s`: the scheme literal, then the greedy nonempty `/`-free run
`[^\/]+` (backtracking cannot shorten it, because the character after the run
must be `/`), then `/`, then the greedy nonempty `.+` run, which stops at line
terminators. -/
def tryMatchAt (s : List Char) : Option (List Char × List Char) :=
  if schemeChars.isPrefixOf s then
    match splitFirstSlash (s.drop schemeChars.length) with
    | none => none
    | some (t, rest) =>
      if t.isEmpty then none
      else
        let i := rest.takeWhile (fun c => !isLineTerm c)
        if i.isEmpty then none else some (t, i)
  else none

/-- Unanchored matching, as in uri.match(regex): the engine tries every start
position from the left and the first position where the pattern matches wins. -/
def uriMatchList : List Char → Option (List Char × List Char)
  | [] => tryMatchAt []
  | c :: cs =>
    match tryMatchAt (c :: cs) with
    | some r => some r
    | none => uriMatchList cs

/-- Capture groups 1 and 2 of the match of /cloudscape:\/\/([^\/]+)\/(.+)/. -/
def uriMatch (uri : String) : Option (String × String) :=
  (uriMatchList uri.data).map (fun p => (String.mk p.1, String.mk p.2))

/-- The ReadResourceRequestSchema handler: parse the URI, dispatch on the type
segment, look up the entity and render it; `.error` carries the message of the
`Error` the handler throws. -/
def readResource (uri : String) : Except String String :=
  match uriMatch uri with
  | none => .error ("Invalid resource URI format: " ++ uri)
  | some (resourceType, resourceId) =>
    if resourceType = "component" then
      match getComponent resourceId with
      | none => .error ("Component " ++ resourceId ++ " not found")
      | some component => .ok (formatComponentAsMarkdown component)
    else if resourceType = "pattern" then
      match getPattern resourceId with
      | none => .error ("Pattern " ++ resourceId ++ " not found")
      | some pattern => .ok (formatPatternAsMarkdown resourceId pattern)
    else if resourceType = "category" then
      match allCategories.find? (fun k => categoryValue k == resourceId) with
      | none => .error ("Category " ++ resourceId ++ " not found")
      | some category => .ok (formatCategoryAsMarkdown category)
    else .error ("Unknown resource type: " ++ resourceType)

/-! ## Helper lemmas -/

theorem strExt {a b : String} (h : a.data = b.data) : a = b := by
  cases a
  cases b
  exact congrArg String.mk h

theorem categoryValue_inj {a b : ComponentCategory} :
    categoryValue a = categoryValue b ↔ a = b := by
  constructor
  · revert a b
    decide
  · intro h
    rw [h]

theorem categoryValue_ne_empty (a : ComponentCategory) : categoryValue a ≠ "" := by
  revert a
  decide

/-- Every component of the shipped catalog is listed, under its id, in the
index entry of its own category. -/
theorem id_mem_componentsByCategory :
    ∀ c ∈ componentValues, c.id ∈ componentsByCategory c.category := by
  decide

/-- The substring condition of the search filter, spelled with `List.IsInfix`. -/
def matchesQuery (q : String) (c : CloudscapeComponent) : Prop :=
  (toLowerJS q).data <:+: (toLowerJS c.name).data ∨
  (toLowerJS q).data <:+: (toLowerJS c.description).data ∨
  (toLowerJS q).data <:+: (toLowerJS c.usage).data

/-! ## C1 -/

theorem mem_searchComponents_none {q : String} {c : CloudscapeComponent} :
    c ∈ searchComponents q none ↔ c ∈ componentValues ∧ matchesQuery q c := by
  simp [searchComponents, List.mem_filter, includesJS_iff, matchesQuery, or_assoc]

theorem mem_searchComponents_some {q : String} {K : ComponentCategory}
    {c : CloudscapeComponent} :
    c ∈ searchComponents q (some (categoryValue K)) ↔
      c ∈ componentValues ∧ matchesQuery q c ∧ c.category = K := by
  have hK : (categoryValue K = "" ∨ categoryValue c.category = categoryValue K) ↔
      c.category = K := by
    rw [categoryValue_inj]
    simp [categoryValue_ne_empty K]
  simp only [searchComponents, List.mem_filter, Bool.and_eq_true, Bool.or_eq_true,
    beq_iff_eq, includesJS_iff, matchesQuery, hK, or_assoc]

/-- C1: for every query `q`, a component is in the `search_components` result
iff the lowercased query occurs as a substring of its lowercased name,
description or usage and, when a category filter (an enum value) is supplied,
its category equals the filter exactly; the result is a sublist of the catalog
values, hence in catalog definition order. -/
theorem search_components_correct (q : String) (c : CloudscapeComponent) :
    (c ∈ searchComponents q none ↔ c ∈ componentValues ∧ matchesQuery q c) ∧
    (∀ K : ComponentCategory,
      c ∈ searchComponents q (some (categoryValue K)) ↔
        c ∈ componentValues ∧ matchesQuery q c ∧ c.category = K) ∧
    (∀ k : Option String, List.Sublist (searchComponents q k) componentValues) :=
  ⟨mem_searchComponents_none, fun _ => mem_searchComponents_some,
    fun _ => List.filter_sublist _⟩

/-! ## C6 -/

/-- C6: category-filtered search results are contained in the unfiltered
results for the same query, and their ids in the category index entry of the
filter. -/
theorem search_filter_subset (q : String) (K : ComponentCategory)
    (c : CloudscapeComponent)
    (h : c ∈ searchComponents q (some (categoryValue K))) :
    c ∈ searchComponents q none ∧ c.id ∈ componentsByCategory K := by
  have h1 := mem_searchComponents_some.mp h
  refine ⟨mem_searchComponents_none.mpr ⟨h1.1, h1.2.1⟩, ?_⟩
  have h2 := id_mem_componentsByCategory c h1.1
  rwa [h1.2.2] at h2

theorem search_filter_subset_witness :
    formComponent ∈ searchComponents "form" none ∧
      formComponent.id ∈ componentsByCategory ComponentCategory.FORM :=
  search_filter_subset "form" ComponentCategory.FORM formComponent (by decide)

/-! ## C4 -/

/-- C4: looking up any catalog component's id returns that component and its
id is listed in the index entry of its category; conversely every id listed in
a category's index entry resolves to a component of that category. -/
theorem catalog_index_consistent :
    (∀ p ∈ cloudscapeComponents,
      getComponent p.2.id = some p.2 ∧
        p.2.id ∈ componentsByCategory p.2.category) ∧
    (∀ K : ComponentCategory, ∀ id ∈ componentsByCategory K,
      (getComponent id).map (fun c => c.category) = some K) := by
  constructor
  · decide
  · decide

theorem catalog_index_consistent_witness :
    getComponent buttonComponent.id = some buttonComponent ∧
      buttonComponent.id ∈ componentsByCategory buttonComponent.category :=
  catalog_index_consistent.1 ("button", buttonComponent) (by simp [cloudscapeComponents])

/-! ## C8 (corrected): the handler lowercases the whole query and tests it as
one substring, so the multi-word query "input text" matches nothing. -/

/-- C8 counterexample: the Form-category form component contains "input" in
its description, yet `search_components("input text", "Form")` does not return
it (the query is matched as the single substring "input text"). -/
theorem search_input_text_counterexample :
    includesJS (toLowerJS formComponent.description) "input" = true ∧
      formComponent ∉ searchComponents "input text" (some "Form") := by
  constructor
  · decide
  · decide

/-- C8 amended: over the shipped catalog, `search_components` with query
"input text" and category filter "Form" returns the Form components whose
lowercased name, description or usage contains the whole lowercased query
"input text" as one substring - no component does, so the result is empty (in
particular no Table or Notification component appears). -/
theorem search_input_text_form_empty :
    searchComponents "input text" (some "Form") = [] := by
  decide

/-! ## C7 -/

/-- C7: in every search_components summary entry the embedded usage text is
the 150-character prefix of the component's usage, with the "..." marker
appended exactly when the usage is longer than 150 characters; the
single-entity markdown that read_resource returns for a catalog component
contains the full usage untruncated. -/
theorem search_usage_truncated (c : CloudscapeComponent) :
    (∃ pre post,
      searchResultEntry c =
        pre ++ (jsSubstring c.usage 150 ++
          (if 150 < jsLength c.usage then "..." else "")) ++ post ∧
      (jsSubstring c.usage 150).data = c.usage.data.take 150 ∧
      (jsSubstring c.usage 150).data <+: c.usage.data ∧
      ((if 150 < jsLength c.usage then ("..." : String) else "") = "..." ↔
        150 < jsLength c.usage)) ∧
    (∃ pre post, formatComponentAsMarkdown c = pre ++ c.usage ++ post) ∧
    (∀ p ∈ cloudscapeComponents,
      readResource ("cloudscape://component/" ++ p.1) =
        .ok (formatComponentAsMarkdown p.2)) := by
  refine ⟨⟨"\n## [" ++ c.name ++ "](" ++ c.links.documentation ++
      ")\n**Category:** " ++ categoryValue c.category ++ "\n\n" ++
      c.description ++ "\n\n**Usage:** ", "\n", ?_, rfl, List.take_prefix _ _, ?_⟩,
    ⟨"# " ++ c.name ++ "\n\n" ++ c.description ++ "\n\n## Usage\n",
     "\n\n## Examples\n" ++ (String.intercalate "\n\n" (c.examples.map (fun ex =>
        "\n### " ++ ex.title ++ "\n" ++ ex.description ++ "\n\n```tsx\n" ++
          ex.code ++ "\n```\n"))) ++
      "\n\n## Best Practices\n" ++ (String.intercalate "\n"
        (c.bestPractices.map (fun practice => "- " ++ practice))) ++
      "\n\n## Documentation Links\n- [Component Documentation](" ++
      c.links.documentation ++ ")\n" ++
      (match c.links.designGuidelines with
       | some g => "- [Design Guidelines](" ++ g ++ ")"
       | none => "") ++ "\n", ?_⟩, ?_⟩
  · apply strExt
    simp [searchResultEntry, String.data_append, List.append_assoc]
  · by_cases h : 150 < jsLength c.usage
    · simp [h]
    · simp [h]
  · apply strExt
    simp [formatComponentAsMarkdown, String.data_append, List.append_assoc]
  · intro p hp
    simp only [cloudscapeComponents, List.mem_cons, List.not_mem_nil, or_false] at hp
    rcases hp with rfl | rfl | rfl | rfl | rfl | rfl <;> rfl

theorem search_usage_truncated_witness :
    readResource ("cloudscape://component/" ++ "button") =
      Except.ok (formatComponentAsMarkdown buttonComponent) :=
  (search_usage_truncated buttonComponent).2.2 ("button", buttonComponent)
    (by simp [cloudscapeComponents])

/-! ## Sorting lemmas for the recommendation algorithm -/

theorem mem_insertByCount {p q : String × Nat} {l : List (String × Nat)} :
    q ∈ insertByCount p l ↔ q = p ∨ q ∈ l := by
  induction l with
  | nil => simp [insertByCount]
  | cons a t ih =>
    by_cases h : a.2 ≤ p.2
    · rw [insertByCount, if_pos h]
      exact List.mem_cons
    · rw [insertByCount, if_neg h]
      rw [List.mem_cons, ih, List.mem_cons]
      tauto

theorem insertByCount_perm (p : String × Nat) (l : List (String × Nat)) :
    (insertByCount p l).Perm (p :: l) := by
  induction l with
  | nil => simp [insertByCount]
  | cons a t ih =>
    by_cases h : a.2 ≤ p.2
    · rw [insertByCount, if_pos h]
    · rw [insertByCount, if_neg h]
      exact (ih.cons a).trans (List.Perm.swap p a t)

theorem sortByCountDesc_perm (l : List (String × Nat)) :
    (sortByCountDesc l).Perm l := by
  induction l with
  | nil => simp [sortByCountDesc]
  | cons p t ih =>
    rw [sortByCountDesc]
    exact (insertByCount_perm p _).trans (ih.cons p)

theorem sortByCountDesc_eq_nil_iff {l : List (String × Nat)} :
    sortByCountDesc l = [] ↔ l = [] := by
  constructor
  · intro h
    have := sortByCountDesc_perm l
    rw [h] at this
    exact this.symm.eq_nil
  · rintro rfl
    rfl

theorem pairwise_insertByCount {P : String × Nat → String × Nat → Prop}
    {p : String × Nat} {l : List (String × Nat)}
    (hl : l.Pairwise (fun a b => b.2 < a.2 ∨ a.2 = b.2 ∧ P a b))
    (hp : ∀ q ∈ l, p.2 = q.2 → P p q) :
    (insertByCount p l).Pairwise (fun a b => b.2 < a.2 ∨ a.2 = b.2 ∧ P a b) := by
  induction l with
  | nil => simp [insertByCount]
  | cons a t ih =>
    rcases List.pairwise_cons.mp hl with ⟨ha, ht⟩
    by_cases h : a.2 ≤ p.2
    · rw [insertByCount, if_pos h]
      refine List.pairwise_cons.mpr ⟨?_, hl⟩
      intro x hx
      rcases Nat.lt_or_ge a.2 p.2 with hlt | hge
      · rcases List.mem_cons.mp hx with rfl | hxt
        · exact Or.inl hlt
        · rcases ha x hxt with hxa | ⟨hax, _⟩
          · exact Or.inl (Nat.lt_trans hxa hlt)
          · exact Or.inl (hax ▸ hlt)
      · have heq : p.2 = a.2 := Nat.le_antisymm hge h
        rcases List.mem_cons.mp hx with rfl | hxt
        · exact Or.inr ⟨heq, hp x (List.mem_cons_self _ _) heq⟩
        · rcases ha x hxt with hxa | ⟨hax, _⟩
          · exact Or.inl (heq ▸ hxa)
          · exact Or.inr ⟨heq.trans hax,
              hp x (List.mem_cons_of_mem _ hxt) (heq.trans hax)⟩
    · rw [insertByCount, if_neg h]
      have hnp : p.2 < a.2 := Nat.lt_of_not_le h
      refine List.pairwise_cons.mpr
        ⟨?_, ih ht (fun q hq he => hp q (List.mem_cons_of_mem a hq) he)⟩
      intro x hx
      rcases mem_insertByCount.mp hx with rfl | hxt
      · exact Or.inl hnp
      · exact ha x hxt

theorem pairwise_sortByCountDesc {P : String × Nat → String × Nat → Prop}
    {l : List (String × Nat)} (h : l.Pairwise P) :
    (sortByCountDesc l).Pairwise (fun a b => b.2 < a.2 ∨ a.2 = b.2 ∧ P a b) := by
  induction l with
  | nil => simp [sortByCountDesc]
  | cons p t ih =>
    rcases List.pairwise_cons.mp h with ⟨hp, ht⟩
    rw [sortByCountDesc]
    exact pairwise_insertByCount (ih ht)
      (fun q hq _ => hp q ((sortByCountDesc_perm t).mem_iff.mp hq))

/-- The position of a component id among the keys of the keyword table. -/
def ruleIdx (id : String) : Nat :=
  (keywords.map Prod.fst).indexOf id

theorem matchesEntries_pairwise (u : String) :
    (matchesEntries u).Pairwise (fun a b => ruleIdx a.1 < ruleIdx b.1) := by
  have h : keywords.Pairwise (fun a b => ruleIdx a.1 < ruleIdx b.1) := by decide
  unfold matchesEntries
  apply List.Pairwise.filter
  rw [List.pairwise_map]
  exact h

theorem mem_matchesEntries {u : String} {p : String × Nat} :
    p ∈ matchesEntries u ↔
      ∃ r, r ∈ keywords ∧ p = (r.1, countKw u r.2) ∧ countKw u r.2 ≠ 0 := by
  unfold matchesEntries
  rw [List.mem_filter, List.mem_map]
  constructor
  · rintro ⟨⟨r, hr, rfl⟩, hpred⟩
    exact ⟨r, hr, rfl, by simpa using hpred⟩
  · rintro ⟨r, hr, rfl, hnz⟩
    exact ⟨⟨r, hr, rfl⟩, by simpa using hnz⟩

theorem mem_sortedMatches {u id : String} (h : id ∈ sortedMatches u) :
    ∃ r, r ∈ keywords ∧ r.1 = id ∧ countKw u r.2 ≠ 0 := by
  rcases List.mem_map.mp h with ⟨p, hp, rfl⟩
  have h1 : p ∈ matchesEntries u :=
    (sortByCountDesc_perm _).mem_iff.mp ((List.take_sublist _ _).mem hp)
  rcases mem_matchesEntries.mp h1 with ⟨r, hr, rfl, hnz⟩
  exact ⟨r, hr, rfl, hnz⟩

theorem sortedMatches_eq_nil_iff {u : String} :
    sortedMatches u = [] ↔ ∀ r ∈ keywords, countKw u r.2 = 0 := by
  unfold sortedMatches sortedPairs
  rw [List.map_eq_nil_iff, List.take_eq_nil_iff]
  simp only [OfNat.ofNat_ne_zero, false_or, sortByCountDesc_eq_nil_iff]
  unfold matchesEntries
  rw [List.filter_eq_nil_iff]
  constructor
  · intro h r hr
    have := h _ (List.mem_map_of_mem _ hr)
    simpa using this
  · intro h p hp
    rcases List.mem_map.mp hp with ⟨r, hr, rfl⟩
    simpa using h r hr

/-! ## C2 -/

/-- C2: the recommendation returns at most 3 ids, replies with the distinct
no-recommendation sentinel exactly when every rule's counter is zero, and when
at most 3 rules (so in particular 1 or 2) have a nonzero counter it returns
exactly the ids of those rules rather than the sentinel. -/
theorem recommend_top3_sentinel (u : String) :
    (∀ l, recommend u = some l → l.length ≤ 3 ∧ l ≠ []) ∧
    (recommend u = none ↔ ∀ r ∈ keywords, countKw u r.2 = 0) ∧
    (∀ l, recommend u = some l →
      (keywords.filter (fun r => countKw u r.2 ≠ 0)).length ≤ 3 →
      ∀ id, (id ∈ l ↔ ∃ r ∈ keywords, r.1 = id ∧ countKw u r.2 ≠ 0)) := by
  have hsome : ∀ l, recommend u = some l → l = sortedMatches u ∧ sortedMatches u ≠ [] := by
    intro l hl
    by_cases h : sortedMatches u = []
    · rw [recommend, if_pos h] at hl
      cases hl
    · rw [recommend, if_neg h] at hl
      cases hl
      exact ⟨rfl, h⟩
  refine ⟨?_, ?_, ?_⟩
  · intro l hl
    rcases hsome l hl with ⟨rfl, hne⟩
    refine ⟨?_, hne⟩
    calc (sortedMatches u).length
        = (sortedPairs u).length := List.length_map _ _
      _ ≤ 3 := List.length_take_le _ _
  · constructor
    · intro h
      by_cases hnil : sortedMatches u = []
      · exact sortedMatches_eq_nil_iff.mp hnil
      · rw [recommend, if_neg hnil] at h
        cases h
    · intro h
      rw [recommend, if_pos (sortedMatches_eq_nil_iff.mpr h)]
  · intro l hl hlen id
    rcases hsome l hl with ⟨rfl, _⟩
    have hm : (matchesEntries u).length ≤ 3 := by
      unfold matchesEntries
      rw [List.filter_map, List.length_map]
      exact hlen
    have htake : (sortedPairs u) = sortByCountDesc (matchesEntries u) := by
      unfold sortedPairs
      exact List.take_of_length_le
        (by rw [(sortByCountDesc_perm _).length_eq]; exact hm)
    constructor
    · intro hid
      rcases mem_sortedMatches hid with ⟨r, hr, hr1, hnz⟩
      exact ⟨r, hr, hr1, hnz⟩
    · rintro ⟨r, hr, rfl, hnz⟩
      unfold sortedMatches
      rw [htake]
      have hmem2 : ((r.1, countKw u r.2) : String × Nat) ∈ sortByCountDesc (matchesEntries u) :=
        (sortByCountDesc_perm _).mem_iff.mpr (mem_matchesEntries.mpr ⟨r, hr, rfl, hnz⟩)
      exact List.mem_map_of_mem Prod.fst hmem2

theorem recommend_top3_sentinel_witness : recommend "qqq" = none :=
  (recommend_top3_sentinel "qqq").2.1.mpr (by decide)

/-! ## C3 -/

/-- C3: the recommended (id, counter) pairs are ordered by counter strictly
descending or, on equal counters, by the definition order of the keyword
table; each counter is the number of the rule's keywords occurring in the
lowercased use case, so a keyword contributes at most one increment and the
counter never exceeds the rule's keyword count; the returned id list is
exactly the first components of these pairs. -/
theorem recommend_order (u : String) :
    (sortedPairs u).Pairwise
      (fun a b => b.2 < a.2 ∨ a.2 = b.2 ∧ ruleIdx a.1 < ruleIdx b.1) ∧
    (∀ p ∈ sortedPairs u, ∃ kws, (p.1, kws) ∈ keywords ∧
      p.2 = countKw u kws ∧ p.2 ≤ kws.length ∧ p.2 ≠ 0) ∧
    (∀ l, recommend u = some l → l = (sortedPairs u).map Prod.fst) := by
  refine ⟨List.Pairwise.sublist (List.take_sublist _ _)
    (pairwise_sortByCountDesc (matchesEntries_pairwise u)), ?_, ?_⟩
  · intro p hp
    have h1 : p ∈ matchesEntries u :=
      (sortByCountDesc_perm _).mem_iff.mp ((List.take_sublist _ _).mem hp)
    rcases mem_matchesEntries.mp h1 with ⟨r, hr, rfl, hnz⟩
    exact ⟨r.2, by simpa using hr, rfl, List.length_filter_le _ _, hnz⟩
  · intro l hl
    by_cases h : sortedMatches u = []
    · rw [recommend, if_pos h] at hl
      cases hl
    · rw [recommend, if_neg h] at hl
      cases hl
      rfl

theorem recommend_order_witness :
    sortedMatches "data" = (sortedPairs "data").map Prod.fst :=
  (recommend_order "data").2.2 (sortedMatches "data") (by decide)

/-! ## C9 -/

/-- C9: every key of the keyword table is a key of the component catalog, so
every id the recommendation returns resolves to a component and the
recommendation formatter never dereferences an absent catalog entry. -/
theorem recommend_ids_resolvable (u : String) :
    (∀ r ∈ keywords, (getComponent r.1).isSome = true) ∧
    (∀ l, recommend u = some l → ∀ id ∈ l, (getComponent id).isSome = true) := by
  have h1 : ∀ r ∈ keywords, (getComponent r.1).isSome = true := by decide
  refine ⟨h1, ?_⟩
  intro l hl id hid
  have hmem : id ∈ sortedMatches u := by
    by_cases h : sortedMatches u = []
    · rw [recommend, if_pos h] at hl
      cases hl
    · rw [recommend, if_neg h] at hl
      cases hl
      exact hid
  rcases mem_sortedMatches hmem with ⟨r, hr, rfl, _⟩
  exact h1 r hr

theorem recommend_ids_resolvable_witness : (getComponent "button").isSome = true :=
  (recommend_ids_resolvable "x").1
    ("button", ["button", "click", "action", "submit", "cancel"]) (by decide)

/-! ## URI resolver lemmas -/

theorem splitFirstSlash_sound {l t r : List Char}
    (h : splitFirstSlash l = some (t, r)) : l = t ++ '/' :: r ∧ '/' ∉ t := by
  induction l generalizing t r with
  | nil => cases h
  | cons c cs ih =>
    by_cases hc : c = '/'
    · subst hc
      rw [splitFirstSlash, if_pos rfl] at h
      simp only [Option.some.injEq, Prod.mk.injEq] at h
      rcases h with ⟨rfl, rfl⟩
      exact ⟨rfl, by simp⟩
    · rw [splitFirstSlash, if_neg hc] at h
      rcases Option.map_eq_some'.mp h with ⟨⟨t', r'⟩, hsp, hpr⟩
      simp only [Prod.mk.injEq] at hpr
      rcases hpr with ⟨rfl, rfl⟩
      rcases ih hsp with ⟨rfl, hnt⟩
      refine ⟨rfl, ?_⟩
      simp only [List.mem_cons, not_or]
      exact ⟨fun he => hc he.symm, hnt⟩

theorem splitFirstSlash_complete {t r : List Char} (h : '/' ∉ t) :
    splitFirstSlash (t ++ '/' :: r) = some (t, r) := by
  induction t with
  | nil => simp [splitFirstSlash]
  | cons x xs ih =>
    have hx : x ≠ '/' := fun he => h (he ▸ List.mem_cons_self _ _)
    have hxs : '/' ∉ xs := fun hm => h (List.mem_cons_of_mem _ hm)
    rw [List.cons_append, splitFirstSlash, if_neg hx, ih hxs]
    rfl

/-- The shape of strings the regexp matches at one fixed start position. -/
def localShape (u : List Char) : Prop :=
  ∃ t c r, u = schemeChars ++ t ++ '/' :: c :: r ∧
    t ≠ [] ∧ '/' ∉ t ∧ isLineTerm c = false

theorem tryMatchAt_isSome_iff {u : List Char} :
    (tryMatchAt u).isSome = true ↔ localShape u := by
  constructor
  · intro h
    rw [tryMatchAt] at h
    by_cases hpre : schemeChars.isPrefixOf u
    · rw [if_pos hpre] at h
      rcases ( List.isPrefixOf_iff_prefix.mp hpre) with ⟨v, rfl⟩
      rw [List.drop_left] at h
      rcases hsp : splitFirstSlash v with _ | ⟨t, rest⟩
      · rw [hsp] at h
        cases h
      · simp only [hsp] at h
        rcases splitFirstSlash_sound hsp with ⟨rfl, hnt⟩
        by_cases ht : t.isEmpty
        · rw [if_pos ht] at h
          cases h
        · rw [if_neg ht] at h
          cases rest with
          | nil => simp at h
          | cons c r =>
            by_cases hc : isLineTerm c
            · simp [List.takeWhile_cons, hc] at h
            · exact ⟨t, c, r, by simp, by simpa [List.isEmpty_iff] using ht, hnt,
                by simpa using hc⟩
    · rw [if_neg hpre] at h
      cases h
  · rintro ⟨t, c, r, rfl, hne, hnt, hterm⟩
    have hpre : schemeChars.isPrefixOf (schemeChars ++ t ++ '/' :: c :: r) := by
      rw [ List.isPrefixOf_iff_prefix, List.append_assoc]
      exact ⟨t ++ '/' :: c :: r, rfl⟩
    rw [tryMatchAt, if_pos hpre, List.append_assoc, List.drop_left,
      splitFirstSlash_complete hnt]
    have ht : t.isEmpty = false := by simpa [List.isEmpty_iff] using hne
    simp [ht, List.takeWhile_cons, hterm]

theorem uriMatchList_isSome_iff {l : List Char} :
    (uriMatchList l).isSome = true ↔
      ∃ p q, l = p ++ q ∧ (tryMatchAt q).isSome = true := by
  induction l with
  | nil =>
    rw [uriMatchList]
    constructor
    · intro h
      exact ⟨[], [], rfl, h⟩
    · rintro ⟨p, q, hpq, hq⟩
      rcases List.append_eq_nil.mp hpq.symm with ⟨rfl, rfl⟩
      exact hq
  | cons c cs ih =>
    rw [uriMatchList]
    rcases h0 : tryMatchAt (c :: cs) with _ | r
    · simp only [ih]
      constructor
      · rintro ⟨p, q, rfl, hq⟩
        exact ⟨c :: p, q, rfl, hq⟩
      · rintro ⟨p, q, hpq, hq⟩
        cases p with
        | nil =>
          rw [List.nil_append] at hpq
          rw [← hpq, h0] at hq
          cases hq
        | cons d p' =>
          rw [List.cons_append] at hpq
          injection hpq with h1 h2
          exact ⟨p', q, h2, hq⟩
    · simp only [Option.isSome_some, true_iff]
      exact ⟨[], c :: cs, rfl, by rw [h0]; rfl⟩

/-! ## C5 (corrected): the regexp is unanchored, so any string containing the
scheme pattern anywhere is accepted; only strings with no such occurrence
fail as malformed. -/

/-- C5 counterexample: an address with extra characters before the scheme
literal is resolved successfully (here to the button component's document),
not rejected with a MalformedAddress error. -/
theorem read_resource_prefix_junk_accepted :
    readResource "xcloudscape://component/button" =
      Except.ok (formatComponentAsMarkdown buttonComponent) ∧
    ∀ msg : String,
      (Except.ok (formatComponentAsMarkdown buttonComponent) : Except String String) ≠
        Except.error msg :=
  ⟨rfl, fun _ h => Except.noConfusion h⟩

/-- C5 amended: read_resource accepts exactly the strings that contain, at any
position, an occurrence of the scheme literal followed by a nonempty `/`-free
type segment, a `/`, and a nonempty greedily captured id that stops at line
terminators (so the id may itself contain `/`); every other string - in
particular any string with no scheme occurrence at all - fails with the
MalformedAddress error carrying the original string. -/
theorem read_resource_malformed (s : String) :
    (uriMatch s = none ↔
      ¬ ∃ p t c r, s.data = p ++ (schemeChars ++ t ++ '/' :: c :: r) ∧
          t ≠ [] ∧ '/' ∉ t ∧ isLineTerm c = false) ∧
    (uriMatch s = none →
      readResource s = .error ("Invalid resource URI format: " ++ s)) := by
  have hnone : uriMatch s = none ↔ uriMatchList s.data = none := by
    unfold uriMatch
    rcases uriMatchList s.data with _ | r <;> simp
  refine ⟨?_, ?_⟩
  · rw [hnone, ← Option.not_isSome_iff_eq_none]
    apply not_congr
    rw [uriMatchList_isSome_iff]
    constructor
    · rintro ⟨p, q, heq, hq⟩
      rcases tryMatchAt_isSome_iff.mp hq with ⟨t, c, r, rfl, hne, hnt, hterm⟩
      exact ⟨p, t, c, r, heq, hne, hnt, hterm⟩
    · rintro ⟨p, t, c, r, hs, hne, hnt, hterm⟩
      exact ⟨p, schemeChars ++ t ++ '/' :: c :: r, hs,
        tryMatchAt_isSome_iff.mpr ⟨t, c, r, rfl, hne, hnt, hterm⟩⟩
  · intro h
    rw [readResource, h]

theorem read_resource_malformed_witness :
    readResource "not-a-valid-uri" =
      Except.error ("Invalid resource URI format: " ++ "not-a-valid-uri") :=
  (read_resource_malformed "not-a-valid-uri").2 (by decide)

/-! ## C10 -/

/-- C10: an address whose type segment is none of component/pattern/category
fails with the "Unknown resource type" error naming that segment, and this
message differs from every MalformedAddress message and every NotFound
message of the three lookup kinds. -/
theorem read_resource_unknown_type (s ty pid : String)
    (h : uriMatch s = some (ty, pid))
    (h1 : ty ≠ "component") (h2 : ty ≠ "pattern") (h3 : ty ≠ "category") :
    readResource s = .error ("Unknown resource type: " ++ ty) ∧
    (∀ v : String,
      "Unknown resource type: " ++ ty ≠ "Invalid resource URI format: " ++ v) ∧
    (∀ v : String,
      "Unknown resource type: " ++ ty ≠ "Component " ++ v ++ " not found") ∧
    (∀ v : String,
      "Unknown resource type: " ++ ty ≠ "Pattern " ++ v ++ " not found") ∧
    (∀ v : String,
      "Unknown resource type: " ++ ty ≠ "Category " ++ v ++ " not found") := by
  refine ⟨?_, ?_, ?_, ?_, ?_⟩
  · rw [readResource, h]
    simp [h1, h2, h3]
  · intro v hv
    have hd := congrArg (fun z : String => z.data.head?) hv
    simp only [String.data_append,
      show ("Unknown resource type: ").data = 'U' :: ("nknown resource type: ").data from rfl,
      show ("Invalid resource URI format: ").data = 'I' :: ("nvalid resource URI format: ").data from rfl,
      List.cons_append, List.head?_cons] at hd
    simp at hd
  · intro v hv
    have hd := congrArg (fun z : String => z.data.head?) hv
    simp only [String.data_append,
      show ("Unknown resource type: ").data = 'U' :: ("nknown resource type: ").data from rfl,
      show ("Component ").data = 'C' :: ("omponent ").data from rfl,
      List.cons_append, List.head?_cons] at hd
    simp at hd
  · intro v hv
    have hd := congrArg (fun z : String => z.data.head?) hv
    simp only [String.data_append,
      show ("Unknown resource type: ").data = 'U' :: ("nknown resource type: ").data from rfl,
      show ("Pattern ").data = 'P' :: ("attern ").data from rfl,
      List.cons_append, List.head?_cons] at hd
    simp at hd
  · intro v hv
    have hd := congrArg (fun z : String => z.data.head?) hv
    simp only [String.data_append,
      show ("Unknown resource type: ").data = 'U' :: ("nknown resource type: ").data from rfl,
      show ("Category ").data = 'C' :: ("ategory ").data from rfl,
      List.cons_append, List.head?_cons] at hd
    simp at hd

theorem read_resource_unknown_type_witness :
    readResource "cloudscape://bogus/x" =
      Except.error ("Unknown resource type: " ++ "bogus") :=
  (read_resource_unknown_type "cloudscape://bogus/x" "bogus" "x" (by decide)
    (by decide) (by decide) (by decide)).1

end Cloudscape
